import Mathlib

/-!
Verification development for the pharma distribution optimiser
(src/app.py).  The optimisation core — parameter extraction from the
input table, LP model construction, the infeasibility diagnoser, and
result extraction — is embedded shallowly below.  Python floats are
modelled as exact rationals; the numeric literals 0.05, 1e-6, 3.0, …
of the source become the corresponding rationals.
-/

namespace Pharma

/-- One row of the input table (the columns of the DataFrame consumed by
`solve_optimization`, src/app.py lines 41-57 and 126-141). -/
structure Row where
  plant : String
  center : String
  drug : String
  week : Int
  base_transport_cost : ℚ
  needs_ultra_cold : ℚ
  holding_cost : ℚ
  shortage_penalty : ℚ
  waste_cost : ℚ
  demand : ℚ
  plant_week_capacity : ℚ
  center_storage_capacity : ℚ
  initial_inventory : ℚ
deriving DecidableEq, Repr

/-- `pandas.Series.unique`: the distinct elements in first-occurrence order. -/
def uniqueList {α : Type} [DecidableEq α] (xs : List α) : List α :=
  xs.foldl (fun acc x => if x ∈ acc then acc else acc ++ [x]) []

/-- Insert into a sorted list of integers (helper for `sorted`). -/
def insSorted (x : Int) : List Int → List Int
  | [] => [x]
  | y :: ys => if x ≤ y then x :: y :: ys else y :: insSorted x ys

/-- Python's `sorted` on a list of integers (insertion sort). -/
def sortInts (xs : List Int) : List Int :=
  xs.foldr insSorted []

/-- A Python dict comprehension over the rows, `{key(r): val(r) for r in df.itertuples()}`:
the LAST row with the given key wins. -/
def lastVal? {κ α : Type} [DecidableEq κ] (key : Row → κ) (val : Row → α)
    (df : List Row) (k : κ) : Option α :=
  ((df.filter (fun r => decide (key r = k))).getLast?).map val

/-- `df["plant"].unique().tolist()` (src/app.py line 127). -/
def plantsOf (df : List Row) : List String := uniqueList (df.map (fun r => r.plant))

/-- `df["center"].unique().tolist()` (line 128). -/
def centersOf (df : List Row) : List String := uniqueList (df.map (fun r => r.center))

/-- `df["drug"].unique().tolist()` (line 129). -/
def drugsOf (df : List Row) : List String := uniqueList (df.map (fun r => r.drug))

/-- `sorted(df["week"].unique().tolist())` (line 130). -/
def weeksOf (df : List Row) : List Int := sortInts (uniqueList (df.map (fun r => r.week)))

/-- `base_cost` dict (line 132), keyed by (plant, center). -/
def base_cost? (df : List Row) (i j : String) : Option ℚ :=
  lastVal? (fun r => (r.plant, r.center)) (fun r => r.base_transport_cost) df (i, j)

/-- `cold_flag` dict (line 133), keyed by drug. -/
def cold_flag? (df : List Row) (k : String) : Option ℚ :=
  lastVal? (fun r => r.drug) (fun r => r.needs_ultra_cold) df k

/-- `holding` dict (line 134), keyed by (center, drug). -/
def holding? (df : List Row) (j k : String) : Option ℚ :=
  lastVal? (fun r => (r.center, r.drug)) (fun r => r.holding_cost) df (j, k)

/-- `penalty` dict (line 135), keyed by drug. -/
def penalty? (df : List Row) (k : String) : Option ℚ :=
  lastVal? (fun r => r.drug) (fun r => r.shortage_penalty) df k

/-- `waste_cost` dict (line 136), keyed by drug. -/
def waste_cost? (df : List Row) (k : String) : Option ℚ :=
  lastVal? (fun r => r.drug) (fun r => r.waste_cost) df k

/-- `demand` dict (line 137), keyed by (center, drug, week). -/
def demand? (df : List Row) (j k : String) (t : Int) : Option ℚ :=
  lastVal? (fun r => (r.center, r.drug, r.week)) (fun r => r.demand) df (j, k, t)

/-- `prod_cap` dict (line 138), keyed by (plant, week). -/
def prod_cap? (df : List Row) (i : String) (t : Int) : Option ℚ :=
  lastVal? (fun r => (r.plant, r.week)) (fun r => r.plant_week_capacity) df (i, t)

/-- `storage_cap` dict (line 139), keyed by center. -/
def storage_cap? (df : List Row) (j : String) : Option ℚ :=
  lastVal? (fun r => r.center) (fun r => r.center_storage_capacity) df j

/-- `init_inventory` dict (lines 140-141): only rows of the first week
contribute, keyed by (center, drug). -/
def initInv? (df : List Row) (j k : String) : Option ℚ :=
  match (weeksOf df).head? with
  | none => none
  | some w0 =>
      lastVal? (fun r => (r.center, r.drug)) (fun r => r.initial_inventory)
        (df.filter (fun r => decide (r.week = w0))) (j, k)

/-- The decision variables created by `LpVariable.dicts` (lines 147-150):
`ship`, `inv`, `short`, `expire`, each with lower bound 0. -/
inductive Var where
  | ship (i j k : String) (t : Int)
  | inv (j k : String) (t : Int)
  | short (j k : String) (t : Int)
  | expire (j k : String) (t : Int)
deriving DecidableEq, Repr

/-- A PuLP linear expression over the decision variables (constants,
variables, +, -, scalar multiples). -/
inductive LinE where
  | c (q : ℚ)
  | v (x : Var)
  | add (l r : LinE)
  | sub (l r : LinE)
  | smul (q : ℚ) (e : LinE)
deriving DecidableEq, Repr

/-- Value of a linear expression under an assignment of the variables. -/
def evalLin (a : Var → ℚ) : LinE → ℚ
  | .c q => q
  | .v x => a x
  | .add l r => evalLin a l + evalLin a r
  | .sub l r => evalLin a l - evalLin a r
  | .smul q e => q * evalLin a e

/-- `pl.lpSum`: fold the summands together from the left, starting at 0. -/
def lpSum (es : List LinE) : LinE :=
  es.foldl LinE.add (LinE.c 0)

/-- A model constraint: an equality or a ≤ between linear expressions. -/
inductive Constr where
  | eqC (l r : LinE)
  | leC (l r : LinE)
deriving DecidableEq, Repr

/-- Whether an assignment satisfies a constraint. -/
def Constr.sat (a : Var → ℚ) : Constr → Bool
  | .eqC l r => evalLin a l == evalLin a r
  | .leC l r => decide (evalLin a l ≤ evalLin a r)

/-- The fixed per-unit ultra-cold surcharge `h_cold = 3.0` (line 143). -/
def h_cold : ℚ := 3

/-- Objective weight `alpha = 1.0` (line 152, a hard literal in the source). -/
def alpha : ℚ := 1

/-- Objective weight `beta = 0.7` (line 153, a hard literal in the source). -/
def beta : ℚ := 7/10

/-- Objective weight `gamma = 4.0` (line 154, a hard literal in the source). -/
def gamma : ℚ := 4

/-- Objective weight `delta = 3.0` (line 155, a hard literal in the source). -/
def delta : ℚ := 3

/-- The parameters of one solve, as extracted from the table by
lines 127-141: the four index sets and the per-key lookups.  The lookup
functions are total; `extractPrm` below only produces a `Prm` when every
key the model construction will index directly is present, mirroring the
KeyError the source would raise otherwise.  `init_inventory` is the one
map read with `.get(key, 0)` (line 171), hence totalised with default 0. -/
structure Prm where
  plants : List String
  centers : List String
  drugs : List String
  weeks : List Int
  base_cost : String → String → ℚ
  cold_flag : String → ℚ
  holding : String → String → ℚ
  penalty : String → ℚ
  waste_cost : String → ℚ
  demand : String → String → Int → ℚ
  prod_cap : String → Int → ℚ
  storage_cap : String → ℚ
  init_inventory : String → String → ℚ

/-- `weeks[0]`, the first planning period (the default is never reached
when the weeks list is non-empty). -/
def firstWeek (p : Prm) : Int := p.weeks.head?.getD 0

/-- The parameter lookups of lines 127-141, totalised with default 0.
The defaults are only observable for `init_inventory` (read via
`.get(key, 0)` in the source); every other lookup is guarded by
`requiredOk` before a model is built. -/
def prmOf (df : List Row) : Prm where
  plants := plantsOf df
  centers := centersOf df
  drugs := drugsOf df
  weeks := weeksOf df
  base_cost := fun i j => (base_cost? df i j).getD 0
  cold_flag := fun k => (cold_flag? df k).getD 0
  holding := fun j k => (holding? df j k).getD 0
  penalty := fun k => (penalty? df k).getD 0
  waste_cost := fun k => (waste_cost? df k).getD 0
  demand := fun j k t => (demand? df j k t).getD 0
  prod_cap := fun i t => (prod_cap? df i t).getD 0
  storage_cap := fun j => (storage_cap? df j).getD 0
  init_inventory := fun j k => (initInv? df j k).getD 0

/-- The domain checks for the dict indexings performed while the source
builds the objective and constraints (lines 157-197): every key those
loops index directly must be present, and for every non-first week `t`
the variable `inv[j][k][t-1]` indexed at line 179 must exist, i.e. `t-1`
must itself be a week.  The source raises a KeyError lazily at the first
absent key; here the checks are hoisted, which errors on exactly the
same tables. -/
def requiredOk (df : List Row) : Bool :=
  let plants := plantsOf df
  let centers := centersOf df
  let drugs := drugsOf df
  let weeks := weeksOf df
  let w0 := weeks.head?.getD 0
  (plants.all fun i => centers.all fun j => (base_cost? df i j).isSome) &&
  (drugs.all fun k => (cold_flag? df k).isSome) &&
  (centers.all fun j => drugs.all fun k => (holding? df j k).isSome) &&
  (drugs.all fun k => (penalty? df k).isSome) &&
  (drugs.all fun k => (waste_cost? df k).isSome) &&
  (centers.all fun j => drugs.all fun k => weeks.all fun t => (demand? df j k t).isSome) &&
  (plants.all fun i => weeks.all fun t => (prod_cap? df i t).isSome) &&
  (centers.all fun j => (storage_cap? df j).isSome) &&
  (weeks.all fun t => decide (t = w0) || weeks.contains (t - 1))

/-- Parameter extraction (src/app.py lines 127-141 together with the
direct dict indexings of lines 157-197): succeeds with the totalised
lookups when every directly-indexed key exists, and fails — as the
source fails with a KeyError — when one is absent.  A missing
`initial_inventory` key is NOT an error: line 171 reads that dict with
`.get((j, k), 0)`. -/
def extractPrm (df : List Row) : Except String Prm :=
  if requiredOk df then .ok (prmOf df) else .error "KeyError"

/-- `inflow = pl.lpSum(x[i][j][k][t] for i in plants)` (line 168). -/
def inflow (p : Prm) (j k : String) (t : Int) : LinE :=
  lpSum (p.plants.map (fun i => LinE.v (Var.ship i j k t)))

/-- The inventory-balance constraint added for one (center, drug, week)
(lines 169-184): for the first week the previous stock is
`init_inventory.get((j, k), 0)`; for every later week it is the
variable `inv[j][k][t - 1]`. -/
def invConstraint (p : Prm) (j k : String) (t : Int) : Constr :=
  if t = firstWeek p then
    .eqC (.v (Var.inv j k t))
      (.sub (.add (.sub (.add (.c (p.init_inventory j k)) (inflow p j k t))
        (.c (p.demand j k t))) (.v (Var.short j k t))) (.v (Var.expire j k t)))
  else
    .eqC (.v (Var.inv j k t))
      (.sub (.add (.sub (.add (.v (Var.inv j k (t - 1))) (inflow p j k t))
        (.c (p.demand j k t))) (.v (Var.short j k t))) (.v (Var.expire j k t)))

/-- The inventory-balance constraints (lines 165-184), in loop order. -/
def invCons (p : Prm) : List Constr :=
  p.centers.flatMap (fun j => p.drugs.flatMap (fun k =>
    p.weeks.map (fun t => invConstraint p j k t)))

/-- The storage-capacity constraints (lines 186-188). -/
def storageCons (p : Prm) : List Constr :=
  p.centers.flatMap (fun j => p.weeks.map (fun t =>
    Constr.leC (lpSum (p.drugs.map (fun k => LinE.v (Var.inv j k t))))
      (.c (p.storage_cap j))))

/-- The production-capacity constraints (lines 190-192). -/
def prodCons (p : Prm) : List Constr :=
  p.plants.flatMap (fun i => p.weeks.map (fun t =>
    Constr.leC (lpSum (p.centers.flatMap (fun j => p.drugs.map (fun k =>
      LinE.v (Var.ship i j k t))))) (.c (p.prod_cap i t))))

/-- The shortage-ceiling constraints `s[j][k][t] <= 0.05 * demand[(j,k,t)]`
(lines 194-197). -/
def shortCons (p : Prm) : List Constr :=
  p.centers.flatMap (fun j => p.drugs.flatMap (fun k =>
    p.weeks.map (fun t =>
      Constr.leC (.v (Var.short j k t)) (.c ((5/100) * p.demand j k t)))))

/-- One summand of the objective generator expression (lines 158-161). -/
def objTerm (p : Prm) (i j k : String) (t : Int) : LinE :=
  .add (.add (.add
    (.smul (alpha * (p.base_cost i j + h_cold * p.cold_flag k)) (.v (Var.ship i j k t)))
    (.smul (beta * p.holding j k) (.v (Var.inv j k t))))
    (.smul (gamma * p.penalty k) (.v (Var.short j k t))))
    (.smul (delta * p.waste_cost k) (.v (Var.expire j k t)))

/-- The objective `model += pl.lpSum(...)` (lines 157-163); the
generator iterates `for i in plants for j in centers for k in drugs
for t in weeks`. -/
def objective (p : Prm) : LinE :=
  lpSum (p.plants.flatMap (fun i => p.centers.flatMap (fun j =>
    p.drugs.flatMap (fun k => p.weeks.map (fun t => objTerm p i j k t)))))

/-- All decision variables created by `LpVariable.dicts` (lines 147-150);
each carries `lowBound=0`. -/
def modelVars (p : Prm) : List Var :=
  (p.plants.flatMap (fun i => p.centers.flatMap (fun j => p.drugs.flatMap (fun k =>
    p.weeks.map (fun t => Var.ship i j k t)))))
  ++ (p.centers.flatMap (fun j => p.drugs.flatMap (fun k =>
    p.weeks.map (fun t => Var.inv j k t))))
  ++ (p.centers.flatMap (fun j => p.drugs.flatMap (fun k =>
    p.weeks.map (fun t => Var.short j k t))))
  ++ (p.centers.flatMap (fun j => p.drugs.flatMap (fun k =>
    p.weeks.map (fun t => Var.expire j k t))))

/-- The LP model of `solve_optimization`: objective, constraints (in the
order the source adds them) and the variables, all with lower bound 0. -/
structure LPModel where
  objective : LinE
  constraints : List Constr
  vars : List Var

/-- Model construction (lines 143-197) from the extracted parameters. -/
def buildModel (p : Prm) : LPModel where
  objective := objective p
  constraints := invCons p ++ storageCons p ++ prodCons p ++ shortCons p
  vars := modelVars p

/-- An assignment is accepted iff it satisfies every constraint and
every variable's lower bound 0. -/
def LPModel.feasibleB (m : LPModel) (a : Var → ℚ) : Bool :=
  m.constraints.all (Constr.sat a) && m.vars.all (fun v => decide ((0:ℚ) ≤ a v))

/-- `sum(d.values())` for a dict comprehension built from the rows: one
contribution per DISTINCT key, each being the last row's value. -/
def dictSum {κ : Type} [DecidableEq κ] (key : Row → κ) (val : Row → ℚ)
    (df : List Row) : ℚ :=
  ((uniqueList (df.map key)).map (fun k => (lastVal? key val df k).getD 0)).sum

/-- `total_demand = sum(demand.values())` (src/app.py line 83). -/
def total_demand (df : List Row) : ℚ :=
  dictSum (fun r => (r.center, r.drug, r.week)) (fun r => r.demand) df

/-- `total_prod = sum(prod_cap.values())` (line 85). -/
def total_prod (df : List Row) : ℚ :=
  dictSum (fun r => (r.plant, r.week)) (fun r => r.plant_week_capacity) df

/-- `init_total_j = sum(init_inventory.get((j, k), 0) for k in drugs)`
(line 101). -/
def initTotal (df : List Row) (j : String) : ℚ :=
  ((drugsOf df).map (fun k => (initInv? df j k).getD 0)).sum

/-- `storage_cap[j]` inside the diagnoser (line 102); the key `j` comes
from the center index set, so the default is never reached there. -/
def storageCap0 (df : List Row) (j : String) : ℚ :=
  (storage_cap? df j).getD 0

/-- Round half to even (how Python's `round`/`.2f` break ties),
on the exact rational. -/
def roundHalfEven (q : ℚ) : Int :=
  if q - ⌊q⌋ < 1/2 then ⌊q⌋
  else if (1/2 : ℚ) < q - ⌊q⌋ then ⌊q⌋ + 1
  else if 2 ∣ ⌊q⌋ then ⌊q⌋ else ⌊q⌋ + 1

/-- Python's `f"{x:.2f}"` formatting, modelled on the exact rational
(the source formats binary floats; the decimal rendering is abstracted). -/
def fmt2 (q : ℚ) : String :=
  let n := roundHalfEven (100 * q)
  let i := n / 100
  let r := (n % 100).natAbs
  toString i ++ "." ++ (if r < 10 then "0" ++ toString r else toString r)

/-- The explanation record returned by `explain_infeasibility`
(lines 65-70). -/
structure Explanation where
  is_feasible : Bool
  root_cause : String
  details : List String
  fix_options : List String
deriving DecidableEq, Repr

/-- The Infeasibility Diagnoser `explain_infeasibility` (src/app.py
lines 64-122): the production check (line 88), then the storage scan
over the centers in encounter order (lines 100-110), then the fallback
(lines 112-120).  Numeric rendering inside the detail strings is
abstracted to the exact-rational `toString`/`fmt2`. -/
def explain_infeasibility (df : List Row) : Explanation :=
  let centers := centersOf df
  let td := total_demand df
  let td95 := (95/100) * td
  let tp := total_prod df
  if tp < td95 then
    { is_feasible := false
      root_cause := "PRODUCTION TOO LOW"
      details := ["Total production: " ++ toString tp,
                  "Required for 95% demand: " ++ fmt2 td95]
      fix_options := ["Increase plant_week_capacity",
                      "Reduce demand values",
                      "Relax shortage limit (e.g., allow 20% instead of 5%)"] }
  else
    match centers.find? (fun j => decide (initTotal df j > storageCap0 df j)) with
    | some j =>
        { is_feasible := false
          root_cause := "STORAGE CAPACITY TOO SMALL"
          details := ["Center " ++ j ++ ": initial inventory = " ++
                      toString (initTotal df j) ++ ", capacity = " ++
                      toString (storageCap0 df j)]
          fix_options := ["Increase center_storage_capacity for " ++ j,
                          "Reduce initial_inventory at that center"] }
    | none =>
        { is_feasible := false
          root_cause := "DEMAND + SHORTAGE LIMIT TOO STRICT"
          details := ["Model cannot satisfy 95% of demand for all centers/drugs/weeks simultaneously."]
          fix_options := ["Relax shortage constraint from 5% to 20%",
                          "Increase production for early weeks",
                          "Increase initial_inventory",
                          "Reduce some peak demand values"] }

/-- The `1e-6` presentation filter of the extractor (lines 220-251). -/
def noiseEps : ℚ := 1/1000000

/-- Python's `round(val, 2)` on the exact rational (half to even). -/
def round2 (q : ℚ) : ℚ :=
  ((roundHalfEven (100 * q) : Int) : ℚ) / 100

/-- One element of the `shipments` list (lines 221-227). -/
structure ShipEntry where
  plant : String
  center : String
  drug : String
  week : Int
  quantity : ℚ
deriving DecidableEq, Repr

/-- One element of the `inventory`/`shortages`/`waste` lists
(lines 234-257). -/
structure CellEntry where
  center : String
  drug : String
  week : Int
  quantity : ℚ
deriving DecidableEq, Repr

/-- The `shipments` extraction loop (lines 215-227): keep a key's entry
exactly when the solved value is present and exceeds `1e-6`, rounding
the kept quantity to 2 decimals. -/
def extractShipments (df : List Row) (vals : Var → Option ℚ) : List ShipEntry :=
  ((plantsOf df).flatMap (fun i => (centersOf df).flatMap (fun j =>
    (drugsOf df).flatMap (fun k => (weeksOf df).map (fun t => (i, j, k, t)))))).filterMap
    (fun q =>
      match q with
      | (i, j, k, t) =>
        match vals (Var.ship i j k t) with
        | some v => if noiseEps < v then some ⟨i, j, k, t, round2 v⟩ else none
        | none => none)

/-- The `inventory`/`shortages`/`waste` extraction loops (lines 229-257),
one list per variable family `f`. -/
def extractCells (df : List Row) (vals : Var → Option ℚ)
    (f : String → String → Int → Var) : List CellEntry :=
  ((centersOf df).flatMap (fun j => (drugsOf df).flatMap (fun k =>
    (weeksOf df).map (fun t => (j, k, t))))).filterMap
    (fun q =>
      match q with
      | (j, k, t) =>
        match vals (f j k t) with
        | some v => if noiseEps < v then some ⟨j, k, t, round2 v⟩ else none
        | none => none)

/-- The response record assembled by `solve_optimization` (lines 204-261). -/
structure SolveResult where
  status : String
  is_feasible : Bool
  optimal_cost : Option ℚ
  shipments : List ShipEntry
  inventory : List CellEntry
  shortages : List CellEntry
  waste : List CellEntry
  explanation : Option Explanation
deriving Repr

/-- Result assembly (src/app.py lines 202-261): `status` is the solver's
status string, `cost` the solved objective value, `vals` the variable
values (`None` when the solver assigned none).  On `"Optimal"` the four
lists are extracted; on ANY other status the lists stay empty and
`explain_infeasibility(df)` is attached as the explanation (line 258-259
is a bare `else:`). -/
def assembleResult (df : List Row) (status : String) (cost : Option ℚ)
    (vals : Var → Option ℚ) : SolveResult :=
  if status = "Optimal" then
    { status := status
      is_feasible := true
      optimal_cost := cost
      shipments := extractShipments df vals
      inventory := extractCells df vals Var.inv
      shortages := extractCells df vals Var.short
      waste := extractCells df vals Var.expire
      explanation := none }
  else
    { status := status
      is_feasible := false
      optimal_cost := none
      shipments := []
      inventory := []
      shortages := []
      waste := []
      explanation := some (explain_infeasibility df) }

/-- An uploaded table: its column names, and its rows (meaningful only
when every required column is present; an empty upload has no rows). -/
structure Frame where
  columns : List String
  rows : List Row

/-- The columns `solve_optimization` reads by subscript, in access order
(lines 127-130). -/
def subscriptColumns : List String := ["plant", "center", "drug", "week"]

/-- The columns read as `itertuples` attributes while building the
parameter dicts (lines 132-141), in access order. -/
def attrColumns : List String :=
  ["plant", "center", "drug", "week", "base_transport_cost",
   "needs_ultra_cold", "holding_cost", "shortage_penalty", "waste_cost",
   "demand", "plant_week_capacity", "center_storage_capacity",
   "initial_inventory"]

/-- `str(e)` of the pandas `KeyError` raised by `df[c]` for a missing
column `c`. -/
def rawColumnError (c : String) : String := "'" ++ c ++ "'"

/-- `str(e)` of the `AttributeError` raised by `r.c` on an itertuples
row lacking column `c` (message shape modelled). -/
def rawAttrError (c : String) : String :=
  "'Pandas' object has no attribute '" ++ c ++ "'"

/-- What reaches the client when a table with missing columns is
uploaded (upload_csv, lines 288-309, calling solve_optimization):
there is NO schema validation — a missing subscripted column raises a
KeyError at lines 127-130; a missing attribute column raises an
AttributeError at lines 132-141, but only if at least one row exists
(the dict comprehensions never touch attributes of an empty table);
otherwise parameter extraction proceeds.  The route's `except` returns
the exception's raw `str(e)`. -/
def buildFromFrame (f : Frame) : Except String Prm :=
  match subscriptColumns.find? (fun c => decide (c ∉ f.columns)) with
  | some c => .error (rawColumnError c)
  | none =>
    if f.rows.isEmpty then extractPrm f.rows
    else
      match attrColumns.find? (fun c => decide (c ∉ f.columns)) with
      | some c => .error (rawAttrError c)
      | none => extractPrm f.rows

/-! ### Helper lemmas -/

theorem sum_flatMap_q {α : Type} (l : List α) (f : α → List ℚ) :
    (l.flatMap f).sum = (l.map (fun x => (f x).sum)).sum := by
  induction l with
  | nil => rfl
  | cons x xs ih => simp [List.flatMap_cons, List.sum_append, ih]

theorem evalLin_foldl (a : Var → ℚ) (es : List LinE) (acc : LinE) :
    evalLin a (es.foldl LinE.add acc) = evalLin a acc + (es.map (evalLin a)).sum := by
  induction es generalizing acc with
  | nil => simp
  | cons e es ih =>
    rw [List.foldl_cons, ih]
    simp [evalLin]
    ring

theorem evalLin_lpSum (a : Var → ℚ) (es : List LinE) :
    evalLin a (lpSum es) = (es.map (evalLin a)).sum := by
  simp [lpSum, evalLin_foldl, evalLin]

theorem feasible_sat {m : LPModel} {a : Var → ℚ} (h : m.feasibleB a = true)
    {c : Constr} (hc : c ∈ m.constraints) : Constr.sat a c = true := by
  have h1 := (Bool.and_eq_true _ _).mp h |>.1
  exact List.all_eq_true.mp h1 c hc

theorem feasible_nonneg {m : LPModel} {a : Var → ℚ} (h : m.feasibleB a = true)
    {v : Var} (hv : v ∈ m.vars) : 0 ≤ a v := by
  have h2 := (Bool.and_eq_true _ _).mp h |>.2
  exact of_decide_eq_true (List.all_eq_true.mp h2 v hv)

theorem sat_eqC {a : Var → ℚ} {l r : LinE} (h : Constr.sat a (.eqC l r) = true) :
    evalLin a l = evalLin a r := by
  simpa [Constr.sat] using h

theorem sat_leC {a : Var → ℚ} {l r : LinE} (h : Constr.sat a (.leC l r) = true) :
    evalLin a l ≤ evalLin a r := by
  simpa [Constr.sat] using h

theorem invConstraint_mem {p : Prm} {j k : String} {t : Int}
    (hj : j ∈ p.centers) (hk : k ∈ p.drugs) (ht : t ∈ p.weeks) :
    invConstraint p j k t ∈ invCons p := by
  simp only [invCons, List.mem_flatMap, List.mem_map]
  exact ⟨j, hj, k, hk, t, ht, rfl⟩

theorem storageCon_mem {p : Prm} {j : String} {t : Int}
    (hj : j ∈ p.centers) (ht : t ∈ p.weeks) :
    Constr.leC (lpSum (p.drugs.map (fun k => LinE.v (Var.inv j k t))))
      (.c (p.storage_cap j)) ∈ storageCons p := by
  simp only [storageCons, List.mem_flatMap, List.mem_map]
  exact ⟨j, hj, t, ht, rfl⟩

theorem prodCon_mem {p : Prm} {i : String} {t : Int}
    (hi : i ∈ p.plants) (ht : t ∈ p.weeks) :
    Constr.leC (lpSum (p.centers.flatMap (fun j => p.drugs.map (fun k =>
      LinE.v (Var.ship i j k t))))) (.c (p.prod_cap i t)) ∈ prodCons p := by
  simp only [prodCons, List.mem_flatMap, List.mem_map]
  exact ⟨i, hi, t, ht, rfl⟩

theorem shortCon_mem {p : Prm} {j k : String} {t : Int}
    (hj : j ∈ p.centers) (hk : k ∈ p.drugs) (ht : t ∈ p.weeks) :
    Constr.leC (.v (Var.short j k t)) (.c ((5/100) * p.demand j k t)) ∈ shortCons p := by
  simp only [shortCons, List.mem_flatMap, List.mem_map]
  exact ⟨j, hj, k, hk, t, ht, rfl⟩

theorem short_mem_vars {p : Prm} {j k : String} {t : Int}
    (hj : j ∈ p.centers) (hk : k ∈ p.drugs) (ht : t ∈ p.weeks) :
    Var.short j k t ∈ modelVars p := by
  simp only [modelVars, List.mem_append, List.mem_flatMap, List.mem_map]
  exact Or.inl (Or.inr ⟨j, hj, k, hk, t, ht, rfl⟩)

/-! ### Claim theorems -/

/-- C1: in the model built by `solve_optimization`, every accepted
assignment satisfies, for each (center, drug) and week `t`, the
inventory balance `Inventory[t] = Inventory[t-1] + ΣShipmentsIn[t] −
Demand[t] + Shortage[t] − Waste[t]`, where for the first week
`InitialInventory(center, drug)` (0 when absent, via the totalised
lookup) replaces `Inventory[t-1]`. -/
theorem c1_inventory_recurrence (p : Prm) (a : Var → ℚ)
    (h : (buildModel p).feasibleB a = true)
    (j k : String) (t : Int)
    (hj : j ∈ p.centers) (hk : k ∈ p.drugs) (ht : t ∈ p.weeks) :
    a (Var.inv j k t) =
      (if t = firstWeek p then p.init_inventory j k else a (Var.inv j k (t - 1)))
      + (p.plants.map (fun i => a (Var.ship i j k t))).sum
      - p.demand j k t + a (Var.short j k t) - a (Var.expire j k t) := by
  have hc : invConstraint p j k t ∈ (buildModel p).constraints := by
    simp only [buildModel, List.mem_append]
    exact Or.inl (Or.inl (Or.inl (invConstraint_mem hj hk ht)))
  have hs := feasible_sat h hc
  by_cases h0 : t = firstWeek p
  · rw [invConstraint, if_pos h0] at hs
    have he := sat_eqC hs
    simp only [evalLin, inflow, evalLin_lpSum, List.map_map, Function.comp_def] at he
    rw [if_pos h0]
    linarith
  · rw [invConstraint, if_neg h0] at hs
    have he := sat_eqC hs
    simp only [evalLin, inflow, evalLin_lpSum, List.map_map, Function.comp_def] at he
    rw [if_neg h0]
    linarith

/-- C2: the model bounds each Shortage variable below by 0 (its
`lowBound`) and above by 0.05 times the cell's demand, so any accepted
assignment has `0 ≤ Shortage(center, drug, week) ≤ 0.05 × Demand`. -/
theorem c2_shortage_bounds (p : Prm) (a : Var → ℚ)
    (h : (buildModel p).feasibleB a = true)
    (j k : String) (t : Int)
    (hj : j ∈ p.centers) (hk : k ∈ p.drugs) (ht : t ∈ p.weeks) :
    0 ≤ a (Var.short j k t) ∧
    a (Var.short j k t) ≤ (5/100) * p.demand j k t := by
  refine ⟨feasible_nonneg h (short_mem_vars hj hk ht), ?_⟩
  have hc : Constr.leC (.v (Var.short j k t)) (.c ((5/100) * p.demand j k t))
      ∈ (buildModel p).constraints := by
    simp only [buildModel, List.mem_append]
    exact Or.inr (shortCon_mem hj hk ht)
  have := sat_leC (feasible_sat h hc)
  simpa [evalLin] using this

/-- C3: any accepted assignment satisfies, for every (center, week), the
storage-capacity constraint (summed inventory over drugs at most the
center's capacity) and, for every (plant, week), the production-capacity
constraint (summed shipment over centers and drugs at most the plant's
weekly capacity). -/
theorem c3_capacity_constraints (p : Prm) (a : Var → ℚ)
    (h : (buildModel p).feasibleB a = true) :
    (∀ j ∈ p.centers, ∀ t ∈ p.weeks,
      (p.drugs.map (fun k => a (Var.inv j k t))).sum ≤ p.storage_cap j) ∧
    (∀ i ∈ p.plants, ∀ t ∈ p.weeks,
      (p.centers.map (fun j =>
        (p.drugs.map (fun k => a (Var.ship i j k t))).sum)).sum ≤ p.prod_cap i t) := by
  constructor
  · intro j hj t ht
    have hc : Constr.leC (lpSum (p.drugs.map (fun k => LinE.v (Var.inv j k t))))
        (.c (p.storage_cap j)) ∈ (buildModel p).constraints := by
      simp only [buildModel, List.mem_append]
      exact Or.inl (Or.inl (Or.inr (storageCon_mem hj ht)))
    have := sat_leC (feasible_sat h hc)
    simpa [evalLin, evalLin_lpSum, List.map_map, Function.comp_def] using this
  · intro i hi t ht
    have hc : Constr.leC (lpSum (p.centers.flatMap (fun j => p.drugs.map (fun k =>
        LinE.v (Var.ship i j k t))))) (.c (p.prod_cap i t))
        ∈ (buildModel p).constraints := by
      simp only [buildModel, List.mem_append]
      exact Or.inl (Or.inr (prodCon_mem hi ht))
    have := sat_leC (feasible_sat h hc)
    simpa [evalLin, evalLin_lpSum, List.map_flatMap, sum_flatMap_q,
      List.map_map, Function.comp_def] using this

/-- C4: the objective built by `solve_optimization` evaluates to the sum
over all (plant, center, drug, week) of
`alpha·(transport + 3·cold_flag)·Shipment + beta·holding·Inventory +
gamma·shortage_penalty·Shortage + delta·waste_cost·Waste`, and the
weights are the fixed values alpha = 1, beta = 0.7, gamma = 4,
delta = 3 (hard literals in the source, src/app.py lines 152-155 — not
exposed as configuration). -/
theorem c4_objective_value (p : Prm) (a : Var → ℚ) :
    evalLin a (buildModel p).objective =
      (p.plants.map (fun i => (p.centers.map (fun j => (p.drugs.map (fun k =>
        (p.weeks.map (fun t =>
          alpha * (p.base_cost i j + 3 * p.cold_flag k) * a (Var.ship i j k t)
          + beta * p.holding j k * a (Var.inv j k t)
          + gamma * p.penalty k * a (Var.short j k t)
          + delta * p.waste_cost k * a (Var.expire j k t))).sum)).sum)).sum)).sum
    ∧ alpha = 1 ∧ beta = 7/10 ∧ gamma = 4 ∧ delta = 3 := by
  refine ⟨?_, rfl, rfl, rfl, rfl⟩
  simp only [buildModel, objective, evalLin_lpSum, List.map_flatMap,
    sum_flatMap_q, List.map_map, Function.comp_def, objTerm, evalLin, h_cold]

/-- A small concrete parameter set: one plant, one center, one drug, two
weeks, demand 10 per week, capacities 100, no initial inventory. -/
def p0 : Prm where
  plants := ["P1"]
  centers := ["C1"]
  drugs := ["D1"]
  weeks := [1, 2]
  base_cost := fun _ _ => 2
  cold_flag := fun _ => 1
  holding := fun _ _ => 1
  penalty := fun _ => 10
  waste_cost := fun _ => 10
  demand := fun _ _ _ => 10
  prod_cap := fun _ _ => 100
  storage_cap := fun _ => 100
  init_inventory := fun _ _ => 0

/-- A concrete assignment: ship 10 units each week, hold nothing, no
shortage, no waste. -/
def a0 : Var → ℚ := fun v =>
  match v with
  | .ship _ _ _ _ => 10
  | _ => 0

/-- `a0` is accepted by the model built from `p0`. -/
theorem feasible_p0_a0 : (buildModel p0).feasibleB a0 = true := by
  norm_num [LPModel.feasibleB, buildModel, invCons, storageCons, prodCons,
    shortCons, invConstraint, inflow, modelVars, Constr.sat, evalLin, lpSum,
    firstWeek, p0, a0]

/-- Witness for C1: the inventory balance at the concrete accepted
assignment `a0`, second week. -/
theorem c1_witness :
    a0 (Var.inv "C1" "D1" 2) =
      (if (2:Int) = firstWeek p0 then p0.init_inventory "C1" "D1"
       else a0 (Var.inv "C1" "D1" (2 - 1)))
      + (p0.plants.map (fun i => a0 (Var.ship i "C1" "D1" 2))).sum
      - p0.demand "C1" "D1" 2 + a0 (Var.short "C1" "D1" 2)
      - a0 (Var.expire "C1" "D1" 2) :=
  c1_inventory_recurrence p0 a0 feasible_p0_a0 "C1" "D1" 2
    (by simp [p0]) (by simp [p0]) (by simp [p0])

/-- Witness for C2: the shortage bounds at the concrete accepted
assignment `a0`. -/
theorem c2_witness :
    0 ≤ a0 (Var.short "C1" "D1" 1) ∧
    a0 (Var.short "C1" "D1" 1) ≤ (5/100) * p0.demand "C1" "D1" 1 :=
  c2_shortage_bounds p0 a0 feasible_p0_a0 "C1" "D1" 1
    (by simp [p0]) (by simp [p0]) (by simp [p0])

/-- Witness for C3: the capacity constraints at the concrete accepted
assignment `a0`. -/
theorem c3_witness :
    (∀ j ∈ p0.centers, ∀ t ∈ p0.weeks,
      (p0.drugs.map (fun k => a0 (Var.inv j k t))).sum ≤ p0.storage_cap j) ∧
    (∀ i ∈ p0.plants, ∀ t ∈ p0.weeks,
      (p0.centers.map (fun j =>
        (p0.drugs.map (fun k => a0 (Var.ship i j k t))).sum)).sum ≤ p0.prod_cap i t) :=
  c3_capacity_constraints p0 a0 feasible_p0_a0

/-- A concrete one-row input table (feasible-looking parameters). -/
def row1 : Row where
  plant := "P1"
  center := "C1"
  drug := "D1"
  week := 1
  base_transport_cost := 2
  needs_ultra_cold := 0
  holding_cost := 1
  shortage_penalty := 10
  waste_cost := 10
  demand := 10
  plant_week_capacity := 100
  center_storage_capacity := 50
  initial_inventory := 0

def df5 : List Row := [row1]

/-- C5 (behaviour at the failing input): `solve_optimization` attaches
`explain_infeasibility(df)` to the result for EVERY non-"Optimal"
solver status — "Unbounded" and the solver-error status "Not Solved"
included — because lines 258-259 are a bare `else:` on
`status == "Optimal"`. -/
theorem c5_nonoptimal_routed_to_diagnoser :
    (assembleResult df5 "Unbounded" none (fun _ => none)).explanation
        = some (explain_infeasibility df5) ∧
    (assembleResult df5 "Not Solved" none (fun _ => none)).explanation
        = some (explain_infeasibility df5) ∧
    (assembleResult df5 "Infeasible" none (fun _ => none)).explanation
        = some (explain_infeasibility df5) := by
  refine ⟨?_, ?_, ?_⟩ <;> simp [assembleResult]

/-- C6: whenever total production capacity is below 0.95 of total demand
— even if some center's initial inventory also exceeds its storage
capacity — the diagnoser fires the production check first, returning
root cause "PRODUCTION TOO LOW" and reporting both totals. -/
theorem c6_production_check_first (df : List Row)
    (h1 : total_prod df < (95/100) * total_demand df)
    (h2 : ∃ j ∈ centersOf df, initTotal df j > storageCap0 df j) :
    (explain_infeasibility df).root_cause = "PRODUCTION TOO LOW" ∧
    (explain_infeasibility df).details =
      ["Total production: " ++ toString (total_prod df),
       "Required for 95% demand: " ++ fmt2 ((95/100) * total_demand df)] := by
  simp only [explain_infeasibility]
  rw [if_pos h1]
  exact ⟨rfl, rfl⟩

/-- A one-row table with production far below demand AND initial
inventory above storage capacity. -/
def row6 : Row where
  plant := "P1"
  center := "C1"
  drug := "D1"
  week := 1
  base_transport_cost := 2
  needs_ultra_cold := 0
  holding_cost := 1
  shortage_penalty := 10
  waste_cost := 10
  demand := 100
  plant_week_capacity := 10
  center_storage_capacity := 20
  initial_inventory := 50

def df6 : List Row := [row6]

/-- Witness for C6: both checks are violated on `df6`, and the
production root cause wins. -/
theorem c6_witness :
    (explain_infeasibility df6).root_cause = "PRODUCTION TOO LOW" ∧
    (explain_infeasibility df6).details =
      ["Total production: " ++ toString (total_prod df6),
       "Required for 95% demand: " ++ fmt2 ((95/100) * total_demand df6)] :=
  c6_production_check_first df6
    (by norm_num [total_prod, total_demand, dictSum, uniqueList, lastVal?, df6, row6])
    (⟨"C1", by norm_num [centersOf, uniqueList, df6, row6],
      by norm_num [initTotal, storageCap0, drugsOf, uniqueList, initInv?,
        weeksOf, sortInts, insSorted, lastVal?, storage_cap?, df6, row6]⟩)

/-- C7 (counterexample): on a table where neither the production check
nor the storage check fires, the fallback root cause the code returns
is the string "DEMAND + SHORTAGE LIMIT TOO STRICT" (src/app.py
line 113), not the claimed "DEMAND/SHORTAGE-LIMIT TOO STRICT". -/
theorem c7_counterexample :
    ¬ total_prod df5 < (95/100) * total_demand df5 ∧
    (∀ j ∈ centersOf df5, ¬ initTotal df5 j > storageCap0 df5 j) ∧
    (explain_infeasibility df5).root_cause = "DEMAND + SHORTAGE LIMIT TOO STRICT" ∧
    (explain_infeasibility df5).root_cause ≠ "DEMAND/SHORTAGE-LIMIT TOO STRICT" := by
  refine ⟨?_, ?_, ?_, ?_⟩
  · norm_num [total_prod, total_demand, dictSum, uniqueList, lastVal?, df5, row1]
  · intro j hj
    simp only [centersOf, uniqueList, df5, row1] at hj
    norm_num at hj
    subst hj
    norm_num [initTotal, storageCap0, drugsOf, uniqueList, initInv?, weeksOf,
      sortInts, insSorted, lastVal?, storage_cap?, df5, row1]
  · norm_num [explain_infeasibility, total_prod, total_demand, dictSum,
      uniqueList, lastVal?, centersOf, drugsOf, initTotal, storageCap0,
      initInv?, weeksOf, sortInts, insSorted, storage_cap?, List.find?,
      df5, row1]
  · norm_num [explain_infeasibility, total_prod, total_demand, dictSum,
      uniqueList, lastVal?, centersOf, drugsOf, initTotal, storageCap0,
      initInv?, weeksOf, sortInts, insSorted, storage_cap?, List.find?,
      df5, row1]
    decide

/-- C7 (amended): when neither the production check nor the storage
check fires, `explain_infeasibility` returns the fallback root cause
"DEMAND + SHORTAGE LIMIT TOO STRICT" with the generic fix
suggestions. -/
theorem c7_fallback_root_cause (df : List Row)
    (h1 : ¬ total_prod df < (95/100) * total_demand df)
    (h2 : ∀ j ∈ centersOf df, ¬ initTotal df j > storageCap0 df j) :
    (explain_infeasibility df).root_cause = "DEMAND + SHORTAGE LIMIT TOO STRICT" ∧
    (explain_infeasibility df).fix_options =
      ["Relax shortage constraint from 5% to 20%",
       "Increase production for early weeks",
       "Increase initial_inventory",
       "Reduce some peak demand values"] := by
  simp only [explain_infeasibility]
  rw [if_neg h1]
  have hf : (centersOf df).find?
      (fun j => decide (initTotal df j > storageCap0 df j)) = none := by
    rw [List.find?_eq_none]
    intro j hj
    simpa using h2 j hj
  rw [hf]
  exact ⟨rfl, rfl⟩

/-- Witness for C7's amended claim at the concrete table `df5`. -/
theorem c7_witness :
    (explain_infeasibility df5).root_cause = "DEMAND + SHORTAGE LIMIT TOO STRICT" ∧
    (explain_infeasibility df5).fix_options =
      ["Relax shortage constraint from 5% to 20%",
       "Increase production for early weeks",
       "Increase initial_inventory",
       "Reduce some peak demand values"] :=
  c7_fallback_root_cause df5
    (by norm_num [total_prod, total_demand, dictSum, uniqueList, lastVal?, df5, row1])
    (by
      intro j hj
      simp only [centersOf, uniqueList, df5, row1] at hj
      norm_num at hj
      subst hj
      norm_num [initTotal, storageCap0, drugsOf, uniqueList, initInv?, weeksOf,
        sortInts, insSorted, lastVal?, storage_cap?, df5, row1])

/-- C8 (amended): a missing initial-inventory key defaults to 0 in the
extracted parameters (line 171 reads the dict with `.get((j, k), 0)`),
but a missing (plant, week) capacity key — directly indexed at
line 192 — aborts model construction with an error (the source's
KeyError); no SchemaError exists. -/
theorem c8_missing_key_behaviour (df : List Row) (j k i : String) (t : Int)
    (hjk : initInv? df j k = none)
    (hi : i ∈ plantsOf df) (ht : t ∈ weeksOf df)
    (hmiss : prod_cap? df i t = none) :
    (prmOf df).init_inventory j k = 0 ∧ (extractPrm df).isOk = false := by
  constructor
  · simp [prmOf, hjk]
  · have hfalse : requiredOk df = false := by
      cases hreq : requiredOk df with
      | false => rfl
      | true =>
        exfalso
        simp only [requiredOk, Bool.and_eq_true] at hreq
        obtain ⟨⟨⟨_, hprod⟩, _⟩, _⟩ := hreq
        have := List.all_eq_true.mp (List.all_eq_true.mp hprod i hi) t ht
        rw [hmiss] at this
        simp at this
    simp only [extractPrm, hfalse, Bool.false_eq_true, if_false]
    rfl

/-- Two rows whose plant×week combinations do not cross: the derived
index sets contain (P1, week 2) and (P2, week 1) although no row
provides a capacity for them. -/
def row8b : Row where
  plant := "P2"
  center := "C1"
  drug := "D1"
  week := 2
  base_transport_cost := 3
  needs_ultra_cold := 0
  holding_cost := 1
  shortage_penalty := 10
  waste_cost := 10
  demand := 10
  plant_week_capacity := 100
  center_storage_capacity := 50
  initial_inventory := 0

def df8 : List Row := [row1, row8b]

/-- C8 (counterexample): on `df8` the key (P1, week 2) has no
plant-week-capacity record, yet P1 and week 2 are in the index sets the
loops iterate; parameter extraction FAILS (the source's KeyError at
line 192) instead of treating the absent capacity as 0. -/
theorem c8_counterexample :
    "P1" ∈ plantsOf df8 ∧ (2 : Int) ∈ weeksOf df8 ∧
    prod_cap? df8 "P1" 2 = none ∧
    (extractPrm df8).isOk = false := by
  refine ⟨?_, ?_, ?_, ?_⟩
  · norm_num [plantsOf, uniqueList, df8, row1, row8b]
    decide
  · norm_num [weeksOf, sortInts, insSorted, uniqueList, df8, row1, row8b]
  · norm_num [prod_cap?, lastVal?, df8, row1, row8b]
    decide
  · norm_num [extractPrm, requiredOk, plantsOf, centersOf, drugsOf, weeksOf,
      sortInts, insSorted, uniqueList, base_cost?, cold_flag?, holding?,
      penalty?, waste_cost?, demand?, prod_cap?, storage_cap?, initInv?,
      lastVal?, df8, row1, row8b]
    decide

/-- Witness for C8's amended claim at the concrete table `df8`: the
initial-inventory lookup for an absent key defaults to 0, while the
absent (P1, week 2) capacity key aborts extraction. -/
theorem c8_witness :
    (prmOf df8).init_inventory "Z" "D1" = 0 ∧ (extractPrm df8).isOk = false :=
  c8_missing_key_behaviour df8 "Z" "D1" "P1" 2
    (by
      norm_num [initInv?, weeksOf, sortInts, insSorted, uniqueList,
        lastVal?, df8, row1, row8b]
      decide)
    (by
      norm_num [plantsOf, uniqueList, df8, row1, row8b]
      decide)
    (by norm_num [weeksOf, sortInts, insSorted, uniqueList, df8, row1, row8b])
    (by
      norm_num [prod_cap?, lastVal?, df8, row1, row8b]
      decide)

/-- Membership in an extracted cell list (`inventory`/`shortages`/
`waste`): exactly the iterated keys whose solved value is present and
above the noise threshold, with the quantity rounded to 2 decimals. -/
theorem mem_extractCells (df : List Row) (vals : Var → Option ℚ)
    (f : String → String → Int → Var) (j k : String) (t : Int) (q : ℚ) :
    CellEntry.mk j k t q ∈ extractCells df vals f ↔
      (j ∈ centersOf df ∧ k ∈ drugsOf df ∧ t ∈ weeksOf df ∧
       ∃ v, vals (f j k t) = some v ∧ noiseEps < v ∧ q = round2 v) := by
  constructor
  · intro h
    rw [extractCells, List.mem_filterMap] at h
    obtain ⟨key, hkey, hf⟩ := h
    obtain ⟨j', k', t'⟩ := key
    dsimp only at hf
    cases hv : vals (f j' k' t') with
    | none => rw [hv] at hf; simp at hf
    | some v =>
      rw [hv] at hf
      dsimp only at hf
      by_cases hlt : noiseEps < v
      · rw [if_pos hlt] at hf
        simp only [Option.some_inj, CellEntry.mk.injEq] at hf
        obtain ⟨hj, hk, ht, hq⟩ := hf
        subst hj; subst hk; subst ht
        simp only [List.mem_flatMap, List.mem_map] at hkey
        obtain ⟨j0, hj0, k0, hk0, t0, ht0, hkeq⟩ := hkey
        simp only [Prod.mk.injEq] at hkeq
        obtain ⟨rfl, rfl, rfl⟩ := hkeq
        exact ⟨hj0, hk0, ht0, v, hv, hlt, hq.symm⟩
      · rw [if_neg hlt] at hf
        simp at hf
  · rintro ⟨hj, hk, ht, v, hv, hlt, hq⟩
    rw [extractCells, List.mem_filterMap]
    refine ⟨(j, k, t), ?_, ?_⟩
    · simp only [List.mem_flatMap, List.mem_map]
      exact ⟨j, hj, k, hk, t, ht, rfl⟩
    · dsimp only
      rw [hv]
      dsimp only
      rw [if_pos hlt, hq]

/-- Membership in the extracted `shipments` list: the analogous
characterisation over (plant, center, drug, week) keys. -/
theorem mem_extractShipments (df : List Row) (vals : Var → Option ℚ)
    (i j k : String) (t : Int) (q : ℚ) :
    ShipEntry.mk i j k t q ∈ extractShipments df vals ↔
      (i ∈ plantsOf df ∧ j ∈ centersOf df ∧ k ∈ drugsOf df ∧ t ∈ weeksOf df ∧
       ∃ v, vals (Var.ship i j k t) = some v ∧ noiseEps < v ∧ q = round2 v) := by
  constructor
  · intro h
    rw [extractShipments, List.mem_filterMap] at h
    obtain ⟨key, hkey, hf⟩ := h
    obtain ⟨i', j', k', t'⟩ := key
    dsimp only at hf
    cases hv : vals (Var.ship i' j' k' t') with
    | none => rw [hv] at hf; simp at hf
    | some v =>
      rw [hv] at hf
      dsimp only at hf
      by_cases hlt : noiseEps < v
      · rw [if_pos hlt] at hf
        simp only [Option.some_inj, ShipEntry.mk.injEq] at hf
        obtain ⟨hi, hj, hk, ht, hq⟩ := hf
        subst hi; subst hj; subst hk; subst ht
        simp only [List.mem_flatMap, List.mem_map] at hkey
        obtain ⟨i0, hi0, j0, hj0, k0, hk0, t0, ht0, hkeq⟩ := hkey
        simp only [Prod.mk.injEq] at hkeq
        obtain ⟨rfl, rfl, rfl, rfl⟩ := hkeq
        exact ⟨hi0, hj0, hk0, ht0, v, hv, hlt, hq.symm⟩
      · rw [if_neg hlt] at hf
        simp at hf
  · rintro ⟨hi, hj, hk, ht, v, hv, hlt, hq⟩
    rw [extractShipments, List.mem_filterMap]
    refine ⟨(i, j, k, t), ?_, ?_⟩
    · simp only [List.mem_flatMap, List.mem_map]
      exact ⟨i, hi, j, hj, k, hk, t, ht, rfl⟩
    · dsimp only
      rw [hv]
      dsimp only
      rw [if_pos hlt, hq]

/-- C9: on an "Optimal" outcome the result lists contain an entry for a
key exactly when the solved variable's value is present and exceeds
1e-6, and the included quantity is that value rounded to 2 decimals
(entries at or below the threshold are omitted). -/
theorem c9_extraction_filter (df : List Row) (cost : Option ℚ)
    (vals : Var → Option ℚ) (i j k : String) (t : Int) (q : ℚ) :
    (ShipEntry.mk i j k t q ∈ (assembleResult df "Optimal" cost vals).shipments ↔
      (i ∈ plantsOf df ∧ j ∈ centersOf df ∧ k ∈ drugsOf df ∧ t ∈ weeksOf df ∧
       ∃ v, vals (Var.ship i j k t) = some v ∧ noiseEps < v ∧ q = round2 v)) ∧
    (CellEntry.mk j k t q ∈ (assembleResult df "Optimal" cost vals).inventory ↔
      (j ∈ centersOf df ∧ k ∈ drugsOf df ∧ t ∈ weeksOf df ∧
       ∃ v, vals (Var.inv j k t) = some v ∧ noiseEps < v ∧ q = round2 v)) ∧
    (CellEntry.mk j k t q ∈ (assembleResult df "Optimal" cost vals).shortages ↔
      (j ∈ centersOf df ∧ k ∈ drugsOf df ∧ t ∈ weeksOf df ∧
       ∃ v, vals (Var.short j k t) = some v ∧ noiseEps < v ∧ q = round2 v)) ∧
    (CellEntry.mk j k t q ∈ (assembleResult df "Optimal" cost vals).waste ↔
      (j ∈ centersOf df ∧ k ∈ drugsOf df ∧ t ∈ weeksOf df ∧
       ∃ v, vals (Var.expire j k t) = some v ∧ noiseEps < v ∧ q = round2 v)) := by
  have hres : assembleResult df "Optimal" cost vals =
      { status := "Optimal", is_feasible := true, optimal_cost := cost,
        shipments := extractShipments df vals,
        inventory := extractCells df vals Var.inv,
        shortages := extractCells df vals Var.short,
        waste := extractCells df vals Var.expire,
        explanation := none } := by
    rw [assembleResult, if_pos rfl]
  rw [hres]
  exact ⟨mem_extractShipments df vals i j k t q,
    mem_extractCells df vals Var.inv j k t q,
    mem_extractCells df vals Var.short j k t q,
    mem_extractCells df vals Var.expire j k t q⟩

/-- An upload lacking the `demand` column (all other required columns
present), with one data row. -/
def f10 : Frame where
  columns := ["plant", "center", "drug", "week", "base_transport_cost",
    "needs_ultra_cold", "holding_cost", "shortage_penalty", "waste_cost",
    "plant_week_capacity", "center_storage_capacity", "initial_inventory"]
  rows := [row1]

/-- An upload with every required column but zero rows (empty index
sets). -/
def fEmpty : Frame where
  columns := attrColumns
  rows := []

/-- C10 (behaviour at the failing inputs): a table missing the `demand`
column does not produce a schema-validation outcome — processing dies
with the raw attribute-error text the route then returns verbatim —
and a table with all columns but an empty index set does not fail at
all: parameter extraction succeeds on zero rows. -/
theorem c10_no_schema_validation :
    buildFromFrame f10 = .error (rawAttrError "demand") ∧
    (buildFromFrame fEmpty).isOk = true := by
  constructor
  · rfl
  · rfl

end Pharma
